import Mathlib

/-!
Verification of the observation-to-metric translation engine of
ambientweatherexporter (weather/parser.go, package weather).

The Go code is shallowly embedded as follows.

* `url.Values` (a map from field name to a non-empty slice of raw string
  values) becomes `Values`, an association list of entries
  `(name, first value, remaining values)`; `url.ParseQuery` never produces
  an empty slice, so carrying the first value separately is faithful and
  makes the `array[0]` access total.
* The Prometheus registry of gauge vectors becomes `Registry`, a partial map
  from (metric kind, label-value list) to the gauge's current value.
  `GaugeVec.WithLabelValues(...).Set` becomes `setGauge`.
  `GaugeVec.DeleteLabelValues` becomes `deleteLabelValues`; as in
  prometheus/client_golang, a call whose number of label values differs from
  the number of variable labels of the vector fails validation and removes
  nothing, which the embedding keeps as an explicit arity check.
* float64 is idealised: raw values are parsed to exact rationals
  (`parseFloatQ` models the decimal forms accepted by strconv.ParseFloat;
  hexadecimal floats, Inf/NaN spellings, digit-separating underscores and
  binary64 rounding/overflow are not modelled) and the derived-quantity
  formulas are computed over the real numbers with Real.log, Real.sqrt and
  Real.rpow standing for math.Log, math.Sqrt and math.Pow.
-/

/-- The thirteen gauge families built in NewParser. -/
inductive MetricKind where
  | temperature
  | battery
  | humidity
  | barometer
  | windDir
  | windSpeedMph
  | solarRadiation
  | rainIn
  | ultraviolet
  | lightningStrikes
  | lightningLastStrike
  | lightningDistance
  | stationtype
deriving DecidableEq, Repr

/-- Number of variable labels each gauge family is declared with in
NewParser: most take (remote_adress, name, discriminator); solarRadiation,
ultraviolet, lightning_last_strike and lightning_distance take only
(remote_adress, name). -/
def labelArity : MetricKind → Nat
  | .temperature => 3
  | .battery => 3
  | .humidity => 3
  | .barometer => 3
  | .windDir => 3
  | .windSpeedMph => 3
  | .solarRadiation => 2
  | .rainIn => 3
  | .ultraviolet => 2
  | .lightningStrikes => 3
  | .lightningLastStrike => 2
  | .lightningDistance => 2
  | .stationtype => 3

/-- The observable state of the shared metrics registry: for each gauge
family and tuple of label values, the current value of that series (none if
the series does not exist). -/
abbrev Registry := MetricKind → List String → Option ℝ

/-- `GaugeVec.WithLabelValues(lvs...).Set(v)`. -/
def setGauge (r : Registry) (k : MetricKind) (lvs : List String) (v : ℝ) : Registry :=
  fun k2 lvs2 => if k2 = k ∧ lvs2 = lvs then some v else r k2 lvs2

/-- `GaugeVec.DeleteLabelValues(lvs...)`.  prometheus/client_golang
validates the label-value count against the family's label arity and, on
mismatch, returns false without deleting anything. -/
def deleteLabelValues (r : Registry) (k : MetricKind) (lvs : List String) : Registry :=
  if lvs.length = labelArity k then
    fun k2 lvs2 => if k2 = k ∧ lvs2 = lvs then none else r k2 lvs2
  else r

/-- The `updateGauge` helper of the source: the returned closure sets the
gauge only when the accompanying error is nil, i.e. only when the parse
produced a value. -/
def updateGauge (r : Registry) (k : MetricKind) (lvs : List String) (v : Option ℝ) : Registry :=
  match v with
  | some value => setGauge r k lvs value
  | none => r

/-- A parsed query string (url.Values): each entry is
(field name, first raw value, remaining raw values). -/
abbrev Values := List (String × String × List String)

/-- Map access `values[name]`, returning the (non-empty) value list of the
first entry with that field name. -/
def lookupValues (values : Values) (name : String) : Option (String × List String) :=
  (values.find? (fun e => e.1 == name)).map (fun e => e.2)

/-- `values.Has(name)`. -/
def hasValue (values : Values) (name : String) : Bool :=
  (lookupValues values name).isSome

/-- `strings.ReplaceAll(s, "\n", "")` followed by
`strings.ReplaceAll(s, "\r", "")`. -/
def stripCRLF (s : String) : String :=
  ⟨s.toList.filter fun c => !(c == '\n' || c == '\r')⟩

/-- Value of a list of decimal digit characters. -/
def natOfDigits (l : List Char) : Nat :=
  l.foldl (fun n c => 10 * n + (c.toNat - 48)) 0

/-- Exponent suffix of a float literal: optional sign, then one or more
digits, then end of input.  The mantissa is carried as numerator/denominator
and the exponent folded into the appropriate side. -/
def expPart (num den : Nat) (r : List Char) : Option ℚ :=
  let (en, r2) := match r with
    | '-' :: r2 => (true, r2)
    | '+' :: r2 => (false, r2)
    | _ => (false, r)
  let ed := r2.takeWhile Char.isDigit
  let rest := r2.dropWhile Char.isDigit
  if ed = [] ∨ rest ≠ [] then none
  else some (if en then mkRat num (den * 10 ^ natOfDigits ed)
    else mkRat (num * 10 ^ natOfDigits ed) den)

/-- The decimal forms accepted by `strconv.ParseFloat(s, 64)`: optional
sign, digits with an optional fractional part (at least one digit on one
side of the dot), optional e/E exponent.  The value is kept as an exact
rational; binary64 rounding, hexadecimal floats, Inf/NaN spellings,
underscores and range errors are not modelled. -/
def parseFloatQ (s : String) : Option ℚ :=
  let go : List Char → Option ℚ := fun cs =>
    let intPart := cs.takeWhile Char.isDigit
    let rest1 := cs.dropWhile Char.isDigit
    let fracPart := match rest1 with
      | '.' :: r => r.takeWhile Char.isDigit
      | _ => []
    let rest2 := match rest1 with
      | '.' :: r => r.dropWhile Char.isDigit
      | _ => rest1
    if intPart = [] ∧ fracPart = [] then none
    else
      let num := natOfDigits (intPart ++ fracPart)
      let den := 10 ^ fracPart.length
      match rest2 with
      | [] => some (mkRat num den)
      | 'e' :: r => expPart num den r
      | 'E' :: r => expPart num den r
      | _ => none
  match s.toList with
  | '-' :: cs => (go cs).map (fun q => -q)
  | '+' :: cs => go cs
  | cs => go cs

/-- The `parseString` closure of Parse: take the first raw value of the
field and strip CR and LF; an absent field is the only failure. -/
def parseString (values : Values) (name : String) : Option String :=
  (lookupValues values name).map (fun e => stripCRLF e.1)

/-- The `parseValue` closure of Parse, with the parsed number kept as an
exact rational: first raw value, CR/LF stripped, then strconv.ParseFloat. -/
def parseValueQ (values : Values) (name : String) : Option ℚ :=
  (lookupValues values name).bind (fun e => parseFloatQ (stripCRLF e.1))

/-- `parseValue` with the result injected into the reals, as stored in the
gauges. -/
def parseValue (values : Values) (name : String) : Option ℝ :=
  (parseValueQ values name).map (fun q => (q : ℝ))

/-- `calculateWindChill` (source lines 503-509): below-guard inputs return
the temperature unchanged, otherwise the NWS wind-chill formula with
math.Pow(windSpeedMph, 0.16). -/
noncomputable def calculateWindChill (tempF windSpeedMph : ℝ) : ℝ :=
  if tempF > 40 ∨ windSpeedMph < 5 then tempF
  else
    let windExp := Real.rpow windSpeedMph 0.16
    35.74 + (0.6215 * tempF) - (35.75 * windExp) + (0.4275 * tempF * windExp)

/-- `calculateHeatIndex` (source lines 512-535): the NWS/Rothfusz heat
index with the simple formula below 80, and the low/high humidity
corrections. -/
noncomputable def calculateHeatIndex (tempF rh : ℝ) : ℝ :=
  if tempF < 80 then tempF
  else
    let simpleHI := 0.5 * (tempF + 61 + ((tempF - 68) * 1.2) + (rh * 0.094))
    if simpleHI < 80 then simpleHI
    else
      let hi := -42.379 + 2.04901523 * tempF + 10.14333127 * rh
        - 0.22475541 * tempF * rh - 0.00683783 * tempF * tempF
        - 0.05481717 * rh * rh + 0.00122874 * tempF * tempF * rh
        + 0.00085282 * tempF * rh * rh - 0.00000199 * tempF * tempF * rh * rh
      if rh < 13 ∧ 80 ≤ tempF ∧ tempF ≤ 112 then
        hi - ((13 - rh) / 4) * Real.sqrt ((17 - |tempF - 95|) / 17)
      else if rh > 85 ∧ 80 ≤ tempF ∧ tempF ≤ 87 then
        hi + ((rh - 85) / 10) * ((87 - tempF) / 5)
      else hi

/-- `calculateDewPoint` (source lines 537-543): Magnus approximation. -/
noncomputable def calculateDewPoint (tempF rh : ℝ) : ℝ :=
  let a : ℝ := 17.625
  let b : ℝ := 243.04
  let t := (tempF - 32) * 5 / 9
  let alpha := Real.log (rh / 100) + ((a * t) / (b + t))
  (b * alpha / (a - alpha) * 9 / 5) + 32

/-- The slot indices of the numbered-sensor loop, `for i := 1; i <= 10`. -/
def slotNums : List Nat := List.range' 1 10

/-- One iteration of the numbered-sensor loop (source lines 421-442).
Note that every DeleteLabelValues call in the source passes only
(p.name, slot label) - two label values - to three-label families. -/
noncomputable def slotStep (name remote : String) (values : Values) (r : Registry) (i : Nat) :
    Registry :=
  let iStr := toString i
  let r1 :=
    if hasValue values ("temp" ++ iStr ++ "f") then
      updateGauge
        (updateGauge r .temperature [remote, name, iStr]
          (parseValue values ("temp" ++ iStr ++ "f")))
        .battery [remote, name, iStr] (parseValue values ("batt" ++ iStr))
    else
      deleteLabelValues (deleteLabelValues r .battery [name, iStr]) .temperature [name, iStr]
  let r2 :=
    if hasValue values ("soilhum" ++ iStr) then
      updateGauge
        (updateGauge r1 .humidity [remote, name, "soil" ++ iStr]
          (parseValue values ("soilhum" ++ iStr)))
        .battery [remote, name, "soil" ++ iStr] (parseValue values ("battsm" ++ iStr))
    else
      deleteLabelValues (deleteLabelValues r1 .humidity [name, "soil" ++ iStr])
        .battery [name, "soil" ++ iStr]
  if hasValue values ("humidity" ++ iStr) then
    updateGauge r2 .humidity [remote, name, iStr] (parseValue values ("humidity" ++ iStr))
  else
    deleteLabelValues r2 .humidity [name, iStr]

/-- The whole numbered-sensor fan-out loop. -/
noncomputable def slotPhase (name remote : String) (values : Values) (r : Registry) : Registry :=
  slotNums.foldl (slotStep name remote values) r

/-- Source line 444: indoor temperature from tempinf. -/
noncomputable def indoorPhase (name remote : String) (values : Values) (r : Registry) : Registry :=
  updateGauge r .temperature [remote, name, "indoor"] (parseValue values "tempinf")

/-- The outdoor-temperature / comfort-index block (source lines 445-465):
executed only when tempf parses; windspeedmph and humidity are handled
inside it. -/
noncomputable def tempfBlock (name remote : String) (values : Values) (r : Registry) : Registry :=
  match parseValueQ values "tempf" with
  | none => r
  | some tempF =>
    let r1 := setGauge r .temperature [remote, name, "outdoor"] (tempF : ℝ)
    let (r2, fl1) :=
      match parseValueQ values "windspeedmph" with
      | some w =>
        (setGauge r1 .windSpeedMph [remote, name, "sustained"] (w : ℝ),
         if tempF ≤ 40 then calculateWindChill (tempF : ℝ) (w : ℝ) else (tempF : ℝ))
      | none => (r1, (tempF : ℝ))
    let (r3, fl2) :=
      match parseValueQ values "humidity" with
      | some h =>
        (setGauge
          (setGauge r2 .humidity [remote, name, "outdoor"] (h : ℝ))
          .temperature [remote, name, "dewpoint"] (calculateDewPoint (tempF : ℝ) (h : ℝ)),
         if 80 ≤ tempF then calculateHeatIndex (tempF : ℝ) (h : ℝ) else fl1)
      | none => (r2, fl1)
    setGauge r3 .temperature [remote, name, "feelsLike"] fl2

/-- The independent best-effort scalar updates (source lines 467-487). -/
noncomputable def scalarPhase (name remote : String) (values : Values) (r : Registry) : Registry :=
  let r := updateGauge r .battery [remote, name, "outdoor"] (parseValue values "battout")
  let r := updateGauge r .battery [remote, name, "indoor"] (parseValue values "battin")
  let r := updateGauge r .battery [remote, name, "lightning"] (parseValue values "batt_lightning")
  let r := updateGauge r .humidity [remote, name, "indoor"] (parseValue values "humidityin")
  let r := updateGauge r .barometer [remote, name, "relative"] (parseValue values "baromrelin")
  let r := updateGauge r .barometer [remote, name, "absolute"] (parseValue values "baromabsin")
  let r := updateGauge r .windDir [remote, name, "current"] (parseValue values "winddir")
  let r := updateGauge r .windDir [remote, name, "avg10m"] (parseValue values "winddir_avg10m")
  let r := updateGauge r .windSpeedMph [remote, name, "gusts"] (parseValue values "windgustmph")
  let r := updateGauge r .solarRadiation [remote, name] (parseValue values "solarradiation")
  let r := updateGauge r .rainIn [remote, name, "hourly"] (parseValue values "hourlyrainin")
  let r := updateGauge r .rainIn [remote, name, "daily"] (parseValue values "dailyrainin")
  let r := updateGauge r .rainIn [remote, name, "weekly"] (parseValue values "weeklyrainin")
  let r := updateGauge r .rainIn [remote, name, "monthly"] (parseValue values "monthlyrainin")
  let r := updateGauge r .rainIn [remote, name, "yearly"] (parseValue values "yearlyrainin")
  let r := updateGauge r .rainIn [remote, name, "total"] (parseValue values "totalrainin")
  let r := updateGauge r .rainIn [remote, name, "event"] (parseValue values "eventrainin")
  let r := updateGauge r .ultraviolet [remote, name] (parseValue values "uv")
  let r := updateGauge r .lightningStrikes [remote, name, "day"] (parseValue values "lightning_day")
  let r := updateGauge r .lightningDistance [remote, name] (parseValue values "lightning_distance")
  updateGauge r .lightningLastStrike [remote, name] (parseValue values "lightning_time")

/-- The station-type tail of Parse (source lines 489-492).  The source
guard is `err == station_err`, comparing the error of the tempf parse from
line 445 with the error of parseString("stationtype") by identity; two
distinct fmt.Errorf values are never identical, so the guard holds exactly
when both are nil: tempf parsed successfully and stationtype is present. -/
noncomputable def stationPhase (name remote : String) (values : Values) (r : Registry) :
    Registry :=
  match parseString values "stationtype", parseValueQ values "tempf" with
  | some stationType, some _ =>
    updateGauge r .stationtype [remote, name, stationType] (some 1)
  | _, _ => r

/-- `Parse` (source lines 387-493), as a state transformer on the
registry. -/
noncomputable def Parse (name remote : String) (values : Values) (r : Registry) : Registry :=
  stationPhase name remote values
    (scalarPhase name remote values
      (tempfBlock name remote values
        (indoorPhase name remote values
          (slotPhase name remote values r))))

/-- The field names whose mere presence/absence steers the numbered-sensor
loop: temp{i}f, soilhum{i} and humidity{i} for i in 1..10. -/
def allTriggerNames : List String :=
  slotNums.flatMap (fun i => ["temp" ++ toString i ++ "f", "soilhum" ++ toString i,
    "humidity" ++ toString i])

/-- The 21 field names of the independent best-effort scalar batch. -/
def scalarNames : List String :=
  ["battout", "battin", "batt_lightning", "humidityin", "baromrelin", "baromabsin",
   "winddir", "winddir_avg10m", "windgustmph", "solarradiation", "hourlyrainin",
   "dailyrainin", "weeklyrainin", "monthlyrainin", "yearlyrainin", "totalrainin",
   "eventrainin", "uv", "lightning_day", "lightning_distance", "lightning_time"]

/-- Drop every entry of a given field name from a field map. -/
def eraseV (f : String) (values : Values) : Values :=
  values.filter (fun e => !(e.1 == f))

/-- Truncate every field's value list to its first element. -/
def truncV (values : Values) : Values :=
  values.map (fun e => (e.1, e.2.1, ([] : List String)))

/-- A registry transformer is oblivious when the fate of every series is
independent of the starting registry: the series is either left alone or
driven to a fixed final state (a value or removal). -/
def Oblivious (f : Registry → Registry) : Prop :=
  ∀ k lvs, (∀ r, f r k lvs = r k lvs) ∨ (∃ o : Option ℝ, ∀ r, f r k lvs = o)

section BasicLemmas

variable {r : Registry} {k k2 : MetricKind} {lvs lvs2 : List String} {v : ℝ}
variable {name remote : String} {values : Values}

theorem setGauge_apply (r : Registry) (k : MetricKind) (lvs : List String) (v : ℝ)
    (k2 : MetricKind) (lvs2 : List String) :
    setGauge r k lvs v k2 lvs2 = if k2 = k ∧ lvs2 = lvs then some v else r k2 lvs2 := rfl

theorem updateGauge_none (r : Registry) (k : MetricKind) (lvs : List String) :
    updateGauge r k lvs none = r := rfl

theorem updateGauge_some (r : Registry) (k : MetricKind) (lvs : List String) (v : ℝ) :
    updateGauge r k lvs (some v) = setGauge r k lvs v := rfl

theorem updateGauge_apply_ne (r : Registry) (k : MetricKind) (lvs : List String)
    (v : Option ℝ) (k2 : MetricKind) (lvs2 : List String) (h : ¬(k2 = k ∧ lvs2 = lvs)) :
    updateGauge r k lvs v k2 lvs2 = r k2 lvs2 := by
  cases v <;> simp [updateGauge, setGauge, h]

theorem deleteLabelValues_noop (r : Registry) (k : MetricKind) (lvs : List String)
    (h : lvs.length ≠ labelArity k) : deleteLabelValues r k lvs = r := by
  simp [deleteLabelValues, h]

theorem delete_two_battery (r : Registry) (a b : String) :
    deleteLabelValues r .battery [a, b] = r := by
  simp [deleteLabelValues, labelArity]

theorem delete_two_temperature (r : Registry) (a b : String) :
    deleteLabelValues r .temperature [a, b] = r := by
  simp [deleteLabelValues, labelArity]

theorem delete_two_humidity (r : Registry) (a b : String) :
    deleteLabelValues r .humidity [a, b] = r := by
  simp [deleteLabelValues, labelArity]

theorem parseValue_eq_none (h : parseValueQ values name = none) :
    parseValue values name = none := by
  simp [parseValue, h]

theorem parseValue_eq_some {q : ℚ} (h : parseValueQ values name = some q) :
    parseValue values name = some (q : ℝ) := by
  simp [parseValue, h]

end BasicLemmas

section PreservationLemmas

variable {r : Registry} {k2 : MetricKind} {lvs2 : List String}
variable {name remote : String} {values : Values}

theorem slotStep_apply_of_ne {i : Nat}
    (h1 : lvs2 ≠ [remote, name, toString i])
    (h2 : lvs2 ≠ [remote, name, "soil" ++ toString i]) :
    slotStep name remote values r i k2 lvs2 = r k2 lvs2 := by
  simp only [slotStep]
  split_ifs <;>
    simp [updateGauge_apply_ne, delete_two_battery, delete_two_temperature,
      delete_two_humidity, h1, h2]

theorem slotPhase_apply_of_ne
    (h : ∀ i ∈ slotNums, lvs2 ≠ [remote, name, toString i] ∧
      lvs2 ≠ [remote, name, "soil" ++ toString i]) :
    slotPhase name remote values r k2 lvs2 = r k2 lvs2 := by
  have main : ∀ (l : List Nat) (r : Registry),
      (∀ i ∈ l, lvs2 ≠ [remote, name, toString i] ∧
        lvs2 ≠ [remote, name, "soil" ++ toString i]) →
      l.foldl (slotStep name remote values) r k2 lvs2 = r k2 lvs2 := by
    intro l
    induction l with
    | nil => intro r _; rfl
    | cons a t ih =>
      intro r hl
      have ha := hl a (List.mem_cons_self a t)
      simp only [List.foldl_cons]
      rw [ih _ (fun i hi => hl i (List.mem_cons_of_mem _ hi)),
        slotStep_apply_of_ne ha.1 ha.2]
  exact main slotNums r h

/-- Reduce the slot-key side conditions to decidable facts about the third
label component. -/
theorem third_label_conds (remote name : String) {c : String}
    (hc : ∀ i ∈ slotNums, c ≠ toString i ∧ c ≠ "soil" ++ toString i) :
    ∀ i ∈ slotNums, [remote, name, c] ≠ [remote, name, toString i] ∧
      [remote, name, c] ≠ [remote, name, "soil" ++ toString i] := by
  intro i hi
  exact ⟨by simp [(hc i hi).1], by simp [(hc i hi).2]⟩

theorem indoorPhase_apply_of_ne (h : ¬(k2 = .temperature ∧ lvs2 = [remote, name, "indoor"])) :
    indoorPhase name remote values r k2 lvs2 = r k2 lvs2 := by
  simp only [indoorPhase]
  exact updateGauge_apply_ne _ _ _ _ _ _ h

theorem scalarPhase_apply_temperature :
    scalarPhase name remote values r .temperature lvs2 = r .temperature lvs2 := by
  simp [scalarPhase, updateGauge_apply_ne]

theorem scalarPhase_apply_windSpeed_sustained :
    scalarPhase name remote values r .windSpeedMph [remote, name, "sustained"] =
      r .windSpeedMph [remote, name, "sustained"] := by
  simp [scalarPhase, updateGauge_apply_ne]

theorem scalarPhase_apply_humidity_outdoor :
    scalarPhase name remote values r .humidity [remote, name, "outdoor"] =
      r .humidity [remote, name, "outdoor"] := by
  simp [scalarPhase, updateGauge_apply_ne]

theorem stationPhase_apply_of_kind (h : k2 ≠ .stationtype) :
    stationPhase name remote values r k2 lvs2 = r k2 lvs2 := by
  unfold stationPhase
  rcases parseString values "stationtype" with _ | st <;>
    rcases parseValueQ values "tempf" with _ | t <;>
    first
      | rfl
      | exact updateGauge_apply_ne _ _ _ _ _ _ (fun hx => h hx.1)

end PreservationLemmas

section IdentityLemmas

variable {r : Registry} {name remote : String} {values : Values}

theorem slotStep_id {i : Nat}
    (h1 : hasValue values ("temp" ++ toString i ++ "f") = false)
    (h2 : hasValue values ("soilhum" ++ toString i) = false)
    (h3 : hasValue values ("humidity" ++ toString i) = false) :
    slotStep name remote values r i = r := by
  simp [slotStep, h1, h2, h3, delete_two_battery, delete_two_temperature,
    delete_two_humidity]

theorem slotPhase_id
    (h : ∀ i ∈ slotNums, hasValue values ("temp" ++ toString i ++ "f") = false ∧
      hasValue values ("soilhum" ++ toString i) = false ∧
      hasValue values ("humidity" ++ toString i) = false) :
    slotPhase name remote values r = r := by
  have main : ∀ (l : List Nat) (r : Registry),
      (∀ i ∈ l, hasValue values ("temp" ++ toString i ++ "f") = false ∧
        hasValue values ("soilhum" ++ toString i) = false ∧
        hasValue values ("humidity" ++ toString i) = false) →
      l.foldl (slotStep name remote values) r = r := by
    intro l
    induction l with
    | nil => intro r _; rfl
    | cons a t ih =>
      intro r hl
      have ha := hl a (List.mem_cons_self a t)
      simp only [List.foldl_cons]
      rw [slotStep_id ha.1 ha.2.1 ha.2.2, ih _ (fun i hi => hl i (List.mem_cons_of_mem _ hi))]
  exact main slotNums r h

theorem indoorPhase_id (h : parseValueQ values "tempinf" = none) :
    indoorPhase name remote values r = r := by
  simp [indoorPhase, parseValue_eq_none h, updateGauge_none]

theorem tempfBlock_id (h : parseValueQ values "tempf" = none) :
    tempfBlock name remote values r = r := by
  simp [tempfBlock, h]

theorem scalarPhase_id (h : ∀ n ∈ scalarNames, parseValueQ values n = none) :
    scalarPhase name remote values r = r := by
  have hv : ∀ n ∈ scalarNames, parseValue values n = none :=
    fun n hn => parseValue_eq_none (h n hn)
  simp only [scalarPhase,
    hv "battout" (by simp [scalarNames]), hv "battin" (by simp [scalarNames]),
    hv "batt_lightning" (by simp [scalarNames]), hv "humidityin" (by simp [scalarNames]),
    hv "baromrelin" (by simp [scalarNames]), hv "baromabsin" (by simp [scalarNames]),
    hv "winddir" (by simp [scalarNames]), hv "winddir_avg10m" (by simp [scalarNames]),
    hv "windgustmph" (by simp [scalarNames]), hv "solarradiation" (by simp [scalarNames]),
    hv "hourlyrainin" (by simp [scalarNames]), hv "dailyrainin" (by simp [scalarNames]),
    hv "weeklyrainin" (by simp [scalarNames]), hv "monthlyrainin" (by simp [scalarNames]),
    hv "yearlyrainin" (by simp [scalarNames]), hv "totalrainin" (by simp [scalarNames]),
    hv "eventrainin" (by simp [scalarNames]), hv "uv" (by simp [scalarNames]),
    hv "lightning_day" (by simp [scalarNames]), hv "lightning_distance" (by simp [scalarNames]),
    hv "lightning_time" (by simp [scalarNames]), updateGauge_none]

theorem stationPhase_id_of_tempf_none (h : parseValueQ values "tempf" = none) :
    stationPhase name remote values r = r := by
  unfold stationPhase
  rcases hs : parseString values "stationtype" with _ | st <;> simp [h, hs]

/-- A report whose fields trigger nothing leaves the registry exactly as it
was. -/
theorem Parse_id
    (h1 : ∀ i ∈ slotNums, hasValue values ("temp" ++ toString i ++ "f") = false ∧
      hasValue values ("soilhum" ++ toString i) = false ∧
      hasValue values ("humidity" ++ toString i) = false)
    (h2 : parseValueQ values "tempinf" = none)
    (h3 : parseValueQ values "tempf" = none)
    (h4 : ∀ n ∈ scalarNames, parseValueQ values n = none) :
    Parse name remote values r = r := by
  rw [Parse, slotPhase_id h1, indoorPhase_id h2, tempfBlock_id h3, scalarPhase_id h4,
    stationPhase_id_of_tempf_none h3]

end IdentityLemmas

section TempfBlockLemmas

variable {r : Registry} {name remote : String} {values : Values} {T W RH : ℚ}

theorem tempfBlock_outdoor (ht : parseValueQ values "tempf" = some T) :
    tempfBlock name remote values r .temperature [remote, name, "outdoor"] = some (T : ℝ) := by
  simp only [tempfBlock, ht]
  rcases hw : parseValueQ values "windspeedmph" with _ | w <;>
    rcases hh : parseValueQ values "humidity" with _ | h <;>
    simp [setGauge_apply]

theorem tempfBlock_feelsLike_windChill (ht : parseValueQ values "tempf" = some T)
    (hw : parseValueQ values "windspeedmph" = some W) (h40 : T ≤ 40)
    (hcond : parseValueQ values "humidity" = none ∨ T < 80) :
    tempfBlock name remote values r .temperature [remote, name, "feelsLike"] =
      some (calculateWindChill (T : ℝ) (W : ℝ)) := by
  simp only [tempfBlock, ht, hw]
  rcases hh : parseValueQ values "humidity" with _ | H
  · simp [setGauge_apply, if_pos h40]
  · have h80 : ¬(80 ≤ T) := by
      rcases hcond with hcv | hlt
      · rw [hh] at hcv; exact absurd hcv (by simp)
      · exact not_le.mpr hlt
    simp [setGauge_apply, if_pos h40, if_neg h80]

theorem tempfBlock_feelsLike_heatIndex (ht : parseValueQ values "tempf" = some T)
    (hh : parseValueQ values "humidity" = some RH) (h80 : 80 ≤ T) :
    tempfBlock name remote values r .temperature [remote, name, "feelsLike"] =
      some (calculateHeatIndex (T : ℝ) (RH : ℝ)) := by
  simp only [tempfBlock, ht, hh]
  rcases hw : parseValueQ values "windspeedmph" with _ | w <;>
    simp [setGauge_apply, if_pos h80]

theorem tempfBlock_feelsLike_raw (ht : parseValueQ values "tempf" = some T)
    (hw : parseValueQ values "windspeedmph" = none)
    (hh : parseValueQ values "humidity" = none) :
    tempfBlock name remote values r .temperature [remote, name, "feelsLike"] = some (T : ℝ) := by
  simp only [tempfBlock, ht, hw, hh]
  simp [setGauge_apply]

end TempfBlockLemmas

section ParseCompositionLemmas

variable {r : Registry} {name remote : String} {values : Values}

theorem Parse_apply_temperature {lvs : List String} :
    Parse name remote values r .temperature lvs =
      tempfBlock name remote values
        (indoorPhase name remote values (slotPhase name remote values r)) .temperature lvs := by
  rw [Parse, stationPhase_apply_of_kind (by simp), scalarPhase_apply_temperature]

theorem slot_conds_outdoor :
    ∀ i ∈ slotNums, "outdoor" ≠ toString i ∧ "outdoor" ≠ "soil" ++ toString i := by decide

theorem slot_conds_dewpoint :
    ∀ i ∈ slotNums, "dewpoint" ≠ toString i ∧ "dewpoint" ≠ "soil" ++ toString i := by decide

theorem slot_conds_feelsLike :
    ∀ i ∈ slotNums, "feelsLike" ≠ toString i ∧ "feelsLike" ≠ "soil" ++ toString i := by decide

theorem slot_conds_sustained :
    ∀ i ∈ slotNums, "sustained" ≠ toString i ∧ "sustained" ≠ "soil" ++ toString i := by decide

/-- When tempf does not parse, none of the five series of the
outdoor-temperature block is touched by the whole call. -/
theorem Parse_tempf_none_untouched (ht : parseValueQ values "tempf" = none) :
    Parse name remote values r .temperature [remote, name, "outdoor"] =
      r .temperature [remote, name, "outdoor"] ∧
    Parse name remote values r .windSpeedMph [remote, name, "sustained"] =
      r .windSpeedMph [remote, name, "sustained"] ∧
    Parse name remote values r .humidity [remote, name, "outdoor"] =
      r .humidity [remote, name, "outdoor"] ∧
    Parse name remote values r .temperature [remote, name, "dewpoint"] =
      r .temperature [remote, name, "dewpoint"] ∧
    Parse name remote values r .temperature [remote, name, "feelsLike"] =
      r .temperature [remote, name, "feelsLike"] := by
  refine ⟨?_, ?_, ?_, ?_, ?_⟩
  · rw [Parse_apply_temperature, tempfBlock_id ht,
      indoorPhase_apply_of_ne (by simp),
      slotPhase_apply_of_ne (third_label_conds remote name slot_conds_outdoor)]
  · rw [Parse, stationPhase_apply_of_kind (by simp), scalarPhase_apply_windSpeed_sustained,
      tempfBlock_id ht, indoorPhase_apply_of_ne (by simp),
      slotPhase_apply_of_ne (third_label_conds remote name slot_conds_sustained)]
  · rw [Parse, stationPhase_apply_of_kind (by simp), scalarPhase_apply_humidity_outdoor,
      tempfBlock_id ht, indoorPhase_apply_of_ne (by simp),
      slotPhase_apply_of_ne (third_label_conds remote name slot_conds_outdoor)]
  · rw [Parse_apply_temperature, tempfBlock_id ht,
      indoorPhase_apply_of_ne (by simp),
      slotPhase_apply_of_ne (third_label_conds remote name slot_conds_dewpoint)]
  · rw [Parse_apply_temperature, tempfBlock_id ht,
      indoorPhase_apply_of_ne (by simp),
      slotPhase_apply_of_ne (third_label_conds remote name slot_conds_feelsLike)]

end ParseCompositionLemmas

/-- C4: whenever tempf parses to a value T, Parse sets temperature
(station, outdoor) to T and sets temperature (station, feelsLike) to: the
wind chill of (T, W) if windspeedmph parses to W and T ≤ 40 and (humidity
does not parse or T < 80); the heat index of (T, RH) if humidity parses to
RH and T ≥ 80; and T itself when neither windspeedmph nor humidity parses.
Whenever tempf fails to parse, none of the outdoor / sustained-wind /
outdoor-humidity / dewpoint / feelsLike series is touched by the call. -/
theorem c4_outdoor_comfort_block (name remote : String) (values : Values) (r : Registry) :
    (∀ T : ℚ, parseValueQ values "tempf" = some T →
      Parse name remote values r .temperature [remote, name, "outdoor"] = some (T : ℝ) ∧
      (∀ W : ℚ, parseValueQ values "windspeedmph" = some W → T ≤ 40 →
        (parseValueQ values "humidity" = none ∨ T < 80) →
        Parse name remote values r .temperature [remote, name, "feelsLike"] =
          some (calculateWindChill (T : ℝ) (W : ℝ))) ∧
      (∀ RH : ℚ, parseValueQ values "humidity" = some RH → 80 ≤ T →
        Parse name remote values r .temperature [remote, name, "feelsLike"] =
          some (calculateHeatIndex (T : ℝ) (RH : ℝ))) ∧
      (parseValueQ values "windspeedmph" = none → parseValueQ values "humidity" = none →
        Parse name remote values r .temperature [remote, name, "feelsLike"] = some (T : ℝ))) ∧
    (parseValueQ values "tempf" = none →
      Parse name remote values r .temperature [remote, name, "outdoor"] =
        r .temperature [remote, name, "outdoor"] ∧
      Parse name remote values r .windSpeedMph [remote, name, "sustained"] =
        r .windSpeedMph [remote, name, "sustained"] ∧
      Parse name remote values r .humidity [remote, name, "outdoor"] =
        r .humidity [remote, name, "outdoor"] ∧
      Parse name remote values r .temperature [remote, name, "dewpoint"] =
        r .temperature [remote, name, "dewpoint"] ∧
      Parse name remote values r .temperature [remote, name, "feelsLike"] =
        r .temperature [remote, name, "feelsLike"]) := by
  constructor
  · intro T ht
    refine ⟨?_, ?_, ?_, ?_⟩
    · rw [Parse_apply_temperature, tempfBlock_outdoor ht]
    · intro W hw h40 hcond
      rw [Parse_apply_temperature, tempfBlock_feelsLike_windChill ht hw h40 hcond]
    · intro RH hh h80
      rw [Parse_apply_temperature, tempfBlock_feelsLike_heatIndex ht hh h80]
    · intro hw hh
      rw [Parse_apply_temperature, tempfBlock_feelsLike_raw ht hw hh]
  · exact Parse_tempf_none_untouched

/-- Witness for C4 at the report tempf=85 with neither windspeedmph nor
humidity present: outdoor and feelsLike both become 85. -/
theorem c4_outdoor_comfort_block_witness :
    parseValueQ [("tempf", "85", [])] "tempf" = some 85 ∧
    Parse "s" "r" [("tempf", "85", [])] (fun _ _ => none)
      .temperature ["r", "s", "outdoor"] = some ((85 : ℚ) : ℝ) ∧
    Parse "s" "r" [("tempf", "85", [])] (fun _ _ => none)
      .temperature ["r", "s", "feelsLike"] = some ((85 : ℚ) : ℝ) := by
  refine ⟨by decide, ?_, ?_⟩
  · exact ((c4_outdoor_comfort_block "s" "r" [("tempf", "85", [])]
      (fun _ _ => none)).1 85 (by decide)).1
  · exact ((c4_outdoor_comfort_block "s" "r" [("tempf", "85", [])]
      (fun _ _ => none)).1 85 (by decide)).2.2.2 (by decide) (by decide)

/-- C1 (code bug): the removal branch of the numbered-sensor loop calls
DeleteLabelValues with only (name, slot) - two label values - against
families declared with three labels (remote_adress, name, sensor), so
prometheus rejects the call and nothing is ever removed.  Starting from a
registry that holds slot-1 temperature and battery series, a report without
temp1f leaves both series present, where the claim requires them absent. -/
theorem c1_slot_series_survive_deletion :
    hasValue ([] : Values) "temp1f" = false ∧
    Parse "s" "r" []
      (fun k lvs =>
        if k = MetricKind.temperature ∧ lvs = ["r", "s", "1"] then some 50
        else if k = MetricKind.battery ∧ lvs = ["r", "s", "1"] then some 1
        else none)
      .temperature ["r", "s", "1"] = some 50 ∧
    Parse "s" "r" []
      (fun k lvs =>
        if k = MetricKind.temperature ∧ lvs = ["r", "s", "1"] then some 50
        else if k = MetricKind.battery ∧ lvs = ["r", "s", "1"] then some 1
        else none)
      .battery ["r", "s", "1"] = some 1 := by
  refine ⟨by decide, ?_, ?_⟩ <;>
    rw [Parse_id (by decide) (by decide) (by decide) (by decide)] <;> simp

/-- C2 (code bug): with stationtype present but tempf absent, the source
guard err == station_err compares the non-nil tempf error with the nil
stationtype error and fails, so the station-type series is never set to 1,
where the claim requires it set whenever stationtype is present. -/
theorem c2_stationtype_not_set_without_tempf :
    parseString [("stationtype", "WS-2000", [])] "stationtype" = some "WS-2000" ∧
    parseValueQ [("stationtype", "WS-2000", [])] "tempf" = none ∧
    Parse "s" "r" [("stationtype", "WS-2000", [])] (fun _ _ => none)
      .stationtype ["r", "s", "WS-2000"] = none := by
  refine ⟨by decide, by decide, ?_⟩
  rw [Parse_id (by decide) (by decide) (by decide) (by decide)]

/-- C10 (code bug): with batt1 present (parsing to 42) but temp1f absent,
the batt1 value is indeed ignored, but the slot-1 battery series is not
removed: the two-label DeleteLabelValues call fails validation against the
three-label family, so a pre-existing battery series keeps its old value
1, where the claim requires the series removed. -/
theorem c10_battery_not_removed_without_tempf :
    hasValue [("batt1", "42", [])] "temp1f" = false ∧
    parseValueQ [("batt1", "42", [])] "batt1" = some 42 ∧
    Parse "s" "r" [("batt1", "42", [])]
      (fun k lvs => if k = MetricKind.battery ∧ lvs = ["r", "s", "1"] then some 1 else none)
      .battery ["r", "s", "1"] = some 1 := by
  refine ⟨by decide, by decide, ?_⟩
  rw [Parse_id (by decide) (by decide) (by decide) (by decide)]
  simp

/-- C3 counterexample: in the report tempf=bad, windspeedmph=10 the single
field tempf fails to parse while windspeedmph parses to 10, yet the
sustained wind series is left untouched (the windspeedmph handling lives
inside the tempf-success block), so the failure of one field does not leave
all remaining fields processed. -/
theorem c3_windspeed_not_processed_on_tempf_failure :
    parseValueQ [("tempf", "bad", []), ("windspeedmph", "10", [])] "windspeedmph" = some 10 ∧
    (lookupValues [("tempf", "bad", []), ("windspeedmph", "10", [])] "tempf").isSome = true ∧
    parseValueQ [("tempf", "bad", []), ("windspeedmph", "10", [])] "tempf" = none ∧
    Parse "s" "r" [("tempf", "bad", []), ("windspeedmph", "10", [])] (fun _ _ => none)
      .windSpeedMph ["r", "s", "sustained"] = none := by
  refine ⟨by decide, by decide, by decide, ?_⟩
  rw [Parse_id (by decide) (by decide) (by decide) (by decide)]

section CongruenceLemmas

variable {name remote : String} {m m2 : Values} {r : Registry} {n f : String}

theorem foldl_congr_mem {α β : Type} {l : List α} {f g : β → α → β}
    (h : ∀ a ∈ l, ∀ b, f b a = g b a) : ∀ b, l.foldl f b = l.foldl g b := by
  induction l with
  | nil => intro b; rfl
  | cons a t ih =>
    intro b
    simp only [List.foldl_cons]
    rw [h a (List.mem_cons_self a t), ih (fun x hx b2 => h x (List.mem_cons_of_mem _ hx) b2)]

theorem mem_trigger_temp {i : Nat} (hi : i ∈ slotNums) :
    ("temp" ++ toString i ++ "f") ∈ allTriggerNames :=
  List.mem_flatMap.mpr ⟨i, hi, by simp⟩

theorem mem_trigger_soil {i : Nat} (hi : i ∈ slotNums) :
    ("soilhum" ++ toString i) ∈ allTriggerNames :=
  List.mem_flatMap.mpr ⟨i, hi, by simp⟩

theorem mem_trigger_hum {i : Nat} (hi : i ∈ slotNums) :
    ("humidity" ++ toString i) ∈ allTriggerNames :=
  List.mem_flatMap.mpr ⟨i, hi, by simp⟩

/-- Parse reads the field map only through parseValue(Q) at arbitrary
names, hasValue at the thirty slot trigger names, and parseString at
stationtype; two maps agreeing there produce identical registry
transformations. -/
theorem Parse_congr
    (hq : ∀ n2, parseValueQ m n2 = parseValueQ m2 n2)
    (hh : ∀ n2 ∈ allTriggerNames, hasValue m n2 = hasValue m2 n2)
    (hs : parseString m "stationtype" = parseString m2 "stationtype") :
    Parse name remote m r = Parse name remote m2 r := by
  have hqf : parseValueQ m = parseValueQ m2 := funext hq
  have hvf : parseValue m = parseValue m2 := funext fun n2 => by simp [parseValue, hq n2]
  have h1 : slotPhase name remote m = slotPhase name remote m2 := by
    funext r2
    exact foldl_congr_mem
      (fun i hi b => by
        simp only [slotStep, hvf, hh _ (mem_trigger_temp hi), hh _ (mem_trigger_soil hi),
          hh _ (mem_trigger_hum hi)])
      r2
  have h2 : indoorPhase name remote m = indoorPhase name remote m2 := by
    funext r2; simp only [indoorPhase, hvf]
  have h3 : tempfBlock name remote m = tempfBlock name remote m2 := by
    funext r2; simp only [tempfBlock, hqf]
  have h4 : scalarPhase name remote m = scalarPhase name remote m2 := by
    funext r2; simp only [scalarPhase, hvf]
  have h5 : stationPhase name remote m = stationPhase name remote m2 := by
    funext r2; simp only [stationPhase, hqf, hs]
  rw [Parse, Parse, h1, h2, h3, h4, h5]

theorem lookupValues_truncV :
    lookupValues (truncV m) n = (lookupValues m n).map (fun e => (e.1, ([] : List String))) := by
  induction m with
  | nil => rfl
  | cons a t ih =>
    have hcons : truncV (a :: t) = (a.1, a.2.1, ([] : List String)) :: truncV t := rfl
    rw [hcons]
    by_cases hb : ((a.1 == n) = true)
    · unfold lookupValues
      rw [@List.find?_cons_of_pos _ (fun e => e.1 == n) (a.1, a.2.1, ([] : List String))
          (truncV t) hb,
        @List.find?_cons_of_pos _ (fun e => e.1 == n) a t hb]
      rfl
    · unfold lookupValues
      rw [@List.find?_cons_of_neg _ (fun e => e.1 == n) (a.1, a.2.1, ([] : List String))
          (truncV t) hb,
        @List.find?_cons_of_neg _ (fun e => e.1 == n) a t hb]
      exact ih

theorem hasValue_truncV : hasValue (truncV m) n = hasValue m n := by
  simp only [hasValue, lookupValues_truncV]
  cases lookupValues m n <;> rfl

theorem parseString_truncV : parseString (truncV m) n = parseString m n := by
  simp only [parseString, lookupValues_truncV]
  cases lookupValues m n <;> rfl

theorem parseValueQ_truncV : parseValueQ (truncV m) n = parseValueQ m n := by
  simp only [parseValueQ, lookupValues_truncV]
  cases lookupValues m n <;> rfl

theorem lookupValues_eraseV :
    lookupValues (eraseV f m) n = if n = f then none else lookupValues m n := by
  simp only [lookupValues, eraseV, List.find?_filter]
  by_cases hnf : n = f
  · rw [if_pos hnf]
    have hnone : m.find? (fun a => (!(a.1 == f)) ∧ (a.1 == n)) = none := by
      rw [List.find?_eq_none]
      intro a _
      by_cases h : a.1 = f <;> simp [h, hnf]
    rw [hnone]; rfl
  · rw [if_neg hnf]
    have hpred : (fun (a : String × String × List String) => ((!(a.1 == f)) ∧ (a.1 == n) : Bool)) =
        (fun a => a.1 == n) := by
      funext a
      by_cases h : a.1 = n
      · have haf : ¬(a.1 = f) := fun e => hnf (by rw [← h, e])
        simp [h, haf, hnf]
      · simp [h]
    rw [hpred]

theorem hasValue_eraseV :
    hasValue (eraseV f m) n = if n = f then false else hasValue m n := by
  simp only [hasValue, lookupValues_eraseV]
  by_cases hnf : n = f <;> simp [hnf]

theorem parseString_eraseV :
    parseString (eraseV f m) n = if n = f then none else parseString m n := by
  simp only [parseString, lookupValues_eraseV]
  by_cases hnf : n = f <;> simp [hnf]

theorem parseValueQ_eraseV :
    parseValueQ (eraseV f m) n = if n = f then none else parseValueQ m n := by
  simp only [parseValueQ, lookupValues_eraseV]
  by_cases hnf : n = f <;> simp [hnf]

end CongruenceLemmas

/-- C9: only the first raw value of each field is ever used: the registry
state produced by a report equals the state produced by the same report
with every field's value list truncated to its first element. -/
theorem c9_first_value_only (name remote : String) (values : Values) (r : Registry) :
    Parse name remote (truncV values) r = Parse name remote values r :=
  Parse_congr (fun _ => parseValueQ_truncV) (fun _ _ => hasValue_truncV) parseString_truncV

/-- C3 (amended): Parse is total and a field whose value fails to parse
behaves exactly as if the field were absent - its own target series is left
untouched and every other field is processed as in the report without it.
In particular (and contrary to the original claim) the failure of tempf
also suppresses the windspeedmph / humidity / dewpoint / feelsLike
handling nested in the tempf block, and for the slot trigger fields
(temp{i}f, soilhum{i}, humidity{i}) present-but-unparseable differs from
absent, since absence switches the loop to its removal branch. -/
theorem c3_parse_failure_acts_as_absence (name remote f : String) (values : Values)
    (r : Registry) (hf : f ∉ allTriggerNames) (hst : f ≠ "stationtype")
    (hp : parseValueQ values f = none) :
    Parse name remote (eraseV f values) r = Parse name remote values r := by
  apply Parse_congr
  · intro n2
    rw [parseValueQ_eraseV]
    by_cases hn : n2 = f
    · rw [if_pos hn, hn, hp]
    · rw [if_neg hn]
  · intro n2 hn
    have : n2 ≠ f := fun e => hf (e ▸ hn)
    rw [hasValue_eraseV, if_neg this]
  · rw [parseString_eraseV, if_neg (Ne.symm hst)]

section ObliviousLemmas

variable {name remote : String} {values : Values}

theorem oblivious_comp (f g : Registry → Registry) (hf : Oblivious f) (hg : Oblivious g) :
    Oblivious (fun r => f (g r)) := by
  intro k lvs
  rcases hf k lvs with hfp | ⟨o, hfo⟩
  · rcases hg k lvs with hgp | ⟨o, hgo⟩
    · exact Or.inl (fun r => by show f (g r) k lvs = r k lvs; rw [hfp, hgp])
    · exact Or.inr ⟨o, fun r => by show f (g r) k lvs = o; rw [hfp, hgo]⟩
  · exact Or.inr ⟨o, fun r => hfo _⟩

theorem oblivious_id : Oblivious (fun r => r) :=
  fun _ _ => Or.inl (fun _ => rfl)

theorem oblivious_setGauge (k : MetricKind) (lvs : List String) (v : ℝ) :
    Oblivious (fun r => setGauge r k lvs v) := by
  intro k2 lvs2
  by_cases h : k2 = k ∧ lvs2 = lvs
  · exact Or.inr ⟨some v, fun r => by simp [setGauge, h]⟩
  · exact Or.inl (fun r => by simp [setGauge, h])

theorem oblivious_updateGauge (k : MetricKind) (lvs : List String) (v : Option ℝ) :
    Oblivious (fun r => updateGauge r k lvs v) := by
  cases v with
  | none =>
    exact fun k2 lvs2 => Or.inl (fun r => by
      show updateGauge r k lvs none k2 lvs2 = r k2 lvs2
      rw [updateGauge_none])
  | some v => exact oblivious_setGauge k lvs v

theorem oblivious_deleteLabelValues (k : MetricKind) (lvs : List String) :
    Oblivious (fun r => deleteLabelValues r k lvs) := by
  by_cases hc : lvs.length = labelArity k
  · intro k2 lvs2
    by_cases h : k2 = k ∧ lvs2 = lvs
    · exact Or.inr ⟨none, fun r => by simp [deleteLabelValues, hc, h]⟩
    · exact Or.inl (fun r => by simp [deleteLabelValues, hc, h])
  · exact fun k2 lvs2 => Or.inl (fun r => by simp [deleteLabelValues, hc])

theorem oblivious_slotStep {i : Nat} :
    Oblivious (fun r => slotStep name remote values r i) := by
  by_cases h1 : hasValue values ("temp" ++ toString i ++ "f") <;>
    by_cases h2 : hasValue values ("soilhum" ++ toString i) <;>
    by_cases h3 : hasValue values ("humidity" ++ toString i) <;>
    simp only [slotStep, h1, h2, h3, if_true, if_false, Bool.false_eq_true] <;>
    first
      | exact oblivious_comp _ _ (oblivious_updateGauge _ _ _)
          (oblivious_comp _ _ (oblivious_updateGauge _ _ _)
            (oblivious_comp _ _ (oblivious_updateGauge _ _ _)
              (oblivious_comp _ _ (oblivious_updateGauge _ _ _)
                (oblivious_updateGauge _ _ _))))
      | exact oblivious_comp _ _ (oblivious_updateGauge _ _ _)
          (oblivious_comp _ _ (oblivious_updateGauge _ _ _)
            (oblivious_comp _ _ (oblivious_updateGauge _ _ _)
              (oblivious_comp _ _ (oblivious_deleteLabelValues _ _)
                (oblivious_deleteLabelValues _ _))))
      | exact oblivious_comp _ _ (oblivious_updateGauge _ _ _)
          (oblivious_comp _ _ (oblivious_deleteLabelValues _ _)
            (oblivious_comp _ _ (oblivious_deleteLabelValues _ _)
              (oblivious_comp _ _ (oblivious_updateGauge _ _ _)
                (oblivious_updateGauge _ _ _))))
      | exact oblivious_comp _ _ (oblivious_updateGauge _ _ _)
          (oblivious_comp _ _ (oblivious_deleteLabelValues _ _)
            (oblivious_comp _ _ (oblivious_deleteLabelValues _ _)
              (oblivious_comp _ _ (oblivious_deleteLabelValues _ _)
                (oblivious_deleteLabelValues _ _))))
      | exact oblivious_comp _ _ (oblivious_deleteLabelValues _ _)
          (oblivious_comp _ _ (oblivious_updateGauge _ _ _)
            (oblivious_comp _ _ (oblivious_updateGauge _ _ _)
              (oblivious_comp _ _ (oblivious_updateGauge _ _ _)
                (oblivious_updateGauge _ _ _))))
      | exact oblivious_comp _ _ (oblivious_deleteLabelValues _ _)
          (oblivious_comp _ _ (oblivious_updateGauge _ _ _)
            (oblivious_comp _ _ (oblivious_updateGauge _ _ _)
              (oblivious_comp _ _ (oblivious_deleteLabelValues _ _)
                (oblivious_deleteLabelValues _ _))))
      | exact oblivious_comp _ _ (oblivious_deleteLabelValues _ _)
          (oblivious_comp _ _ (oblivious_deleteLabelValues _ _)
            (oblivious_comp _ _ (oblivious_deleteLabelValues _ _)
              (oblivious_comp _ _ (oblivious_updateGauge _ _ _)
                (oblivious_updateGauge _ _ _))))
      | exact oblivious_comp _ _ (oblivious_deleteLabelValues _ _)
          (oblivious_comp _ _ (oblivious_deleteLabelValues _ _)
            (oblivious_comp _ _ (oblivious_deleteLabelValues _ _)
              (oblivious_comp _ _ (oblivious_deleteLabelValues _ _)
                (oblivious_deleteLabelValues _ _))))

theorem oblivious_slotPhase : Oblivious (slotPhase name remote values) := by
  have main : ∀ l : List Nat,
      Oblivious (fun r => l.foldl (slotStep name remote values) r) := by
    intro l
    induction l with
    | nil => exact oblivious_id
    | cons a t ih =>
      simp only [List.foldl_cons]
      exact oblivious_comp _ _ ih oblivious_slotStep
  exact main slotNums

theorem oblivious_indoorPhase : Oblivious (indoorPhase name remote values) :=
  oblivious_updateGauge _ _ _

theorem oblivious_tempfBlock : Oblivious (tempfBlock name remote values) := by
  show Oblivious (fun r => tempfBlock name remote values r)
  rcases ht : parseValueQ values "tempf" with _ | T
  · simp only [tempfBlock, ht]
    exact oblivious_id
  · rcases hw : parseValueQ values "windspeedmph" with _ | W <;>
      rcases hh : parseValueQ values "humidity" with _ | H <;>
      simp only [tempfBlock, ht, hw, hh] <;>
      first
        | exact oblivious_comp _ _ (oblivious_setGauge _ _ _) (oblivious_setGauge _ _ _)
        | exact oblivious_comp _ _ (oblivious_setGauge _ _ _)
            (oblivious_comp _ _ (oblivious_setGauge _ _ _)
              (oblivious_comp _ _ (oblivious_setGauge _ _ _) (oblivious_setGauge _ _ _)))
        | exact oblivious_comp _ _ (oblivious_setGauge _ _ _)
            (oblivious_comp _ _ (oblivious_setGauge _ _ _) (oblivious_setGauge _ _ _))
        | exact oblivious_comp _ _ (oblivious_setGauge _ _ _)
            (oblivious_comp _ _ (oblivious_setGauge _ _ _)
              (oblivious_comp _ _ (oblivious_setGauge _ _ _)
                (oblivious_comp _ _ (oblivious_setGauge _ _ _) (oblivious_setGauge _ _ _))))

theorem oblivious_scalarPhase : Oblivious (scalarPhase name remote values) := by
  show Oblivious (fun r => scalarPhase name remote values r)
  simp only [scalarPhase]
  exact oblivious_comp _ _ (oblivious_updateGauge _ _ _)
    (oblivious_comp _ _ (oblivious_updateGauge _ _ _)
      (oblivious_comp _ _ (oblivious_updateGauge _ _ _)
        (oblivious_comp _ _ (oblivious_updateGauge _ _ _)
          (oblivious_comp _ _ (oblivious_updateGauge _ _ _)
            (oblivious_comp _ _ (oblivious_updateGauge _ _ _)
              (oblivious_comp _ _ (oblivious_updateGauge _ _ _)
                (oblivious_comp _ _ (oblivious_updateGauge _ _ _)
                  (oblivious_comp _ _ (oblivious_updateGauge _ _ _)
                    (oblivious_comp _ _ (oblivious_updateGauge _ _ _)
                      (oblivious_comp _ _ (oblivious_updateGauge _ _ _)
                        (oblivious_comp _ _ (oblivious_updateGauge _ _ _)
                          (oblivious_comp _ _ (oblivious_updateGauge _ _ _)
                            (oblivious_comp _ _ (oblivious_updateGauge _ _ _)
                              (oblivious_comp _ _ (oblivious_updateGauge _ _ _)
                                (oblivious_comp _ _ (oblivious_updateGauge _ _ _)
                                  (oblivious_comp _ _ (oblivious_updateGauge _ _ _)
                                    (oblivious_comp _ _ (oblivious_updateGauge _ _ _)
                                      (oblivious_comp _ _ (oblivious_updateGauge _ _ _)
                                        (oblivious_comp _ _ (oblivious_updateGauge _ _ _)
                                          (oblivious_updateGauge _ _ _))))))))))))))))))))

theorem oblivious_stationPhase : Oblivious (stationPhase name remote values) := by
  show Oblivious (fun r => stationPhase name remote values r)
  rcases hs : parseString values "stationtype" with _ | st <;>
    rcases ht : parseValueQ values "tempf" with _ | T <;>
    simp only [stationPhase, hs, ht] <;>
    first
      | exact oblivious_id
      | exact oblivious_updateGauge _ _ _

theorem oblivious_Parse : Oblivious (Parse name remote values) := by
  show Oblivious (fun r => Parse name remote values r)
  simp only [Parse]
  exact oblivious_comp _ _ oblivious_stationPhase
    (oblivious_comp _ _ oblivious_scalarPhase
      (oblivious_comp _ _ oblivious_tempfBlock
        (oblivious_comp _ _ oblivious_indoorPhase oblivious_slotPhase)))

end ObliviousLemmas

/-- C8: Parse is idempotent over registry state: reprocessing the same
report from the same remote leaves the registry unchanged. -/
theorem c8_parse_idempotent (name remote : String) (values : Values) (r : Registry) :
    Parse name remote values (Parse name remote values r) = Parse name remote values r := by
  funext k lvs
  rcases oblivious_Parse k lvs with hp | ⟨o, ho⟩
  · rw [hp]
  · rw [ho, ho]

/-- C5: calculateWindChill returns the temperature unchanged whenever
T > 40 or W < 5 (in particular calculateWindChill(45, 10) = 45), and
otherwise returns 35.74 + 0.6215 T - 35.75 W^0.16 + 0.4275 T W^0.16. -/
theorem c5_wind_chill_spec :
    (∀ T W : ℝ, (T > 40 ∨ W < 5) → calculateWindChill T W = T) ∧
    (∀ T W : ℝ, ¬(T > 40 ∨ W < 5) →
      calculateWindChill T W =
        35.74 + 0.6215 * T - 35.75 * Real.rpow W 0.16 + 0.4275 * T * Real.rpow W 0.16) ∧
    calculateWindChill 45 10 = 45 := by
  refine ⟨?_, ?_, ?_⟩
  · intro T W h
    rw [calculateWindChill, if_pos h]
  · intro T W h
    rw [calculateWindChill, if_neg h]
  · rw [calculateWindChill, if_pos (Or.inl (by norm_num))]

/-- Witness for C5 at (45, 10): the guard T > 40 holds and the raw
temperature is returned. -/
theorem c5_wind_chill_spec_witness :
    ((45 : ℝ) > 40 ∨ (10 : ℝ) < 5) ∧ calculateWindChill 45 10 = 45 :=
  ⟨Or.inl (by norm_num), c5_wind_chill_spec.1 45 10 (Or.inl (by norm_num))⟩

/-- C6: calculateHeatIndex returns T unchanged when T < 80 (in particular
at (75, 90)); otherwise it returns simpleHI = 0.5 (T + 61 + (T-68) 1.2 +
RH 0.094) if simpleHI < 80; otherwise the Rothfusz polynomial, minus
((13-RH)/4) sqrt((17-|T-95|)/17) when RH < 13 and 80 ≤ T ≤ 112, plus
((RH-85)/10)((87-T)/5) when RH > 85 and 80 ≤ T ≤ 87. -/
theorem c6_heat_index_spec :
    (∀ T RH : ℝ, T < 80 → calculateHeatIndex T RH = T) ∧
    (∀ T RH : ℝ, ¬ T < 80 → 0.5 * (T + 61 + ((T - 68) * 1.2) + (RH * 0.094)) < 80 →
      calculateHeatIndex T RH = 0.5 * (T + 61 + ((T - 68) * 1.2) + (RH * 0.094))) ∧
    (∀ T RH : ℝ, ¬ T < 80 → ¬ (0.5 * (T + 61 + ((T - 68) * 1.2) + (RH * 0.094)) < 80) →
      calculateHeatIndex T RH =
        (-42.379 + 2.04901523 * T + 10.14333127 * RH - 0.22475541 * T * RH
          - 0.00683783 * T * T - 0.05481717 * RH * RH + 0.00122874 * T * T * RH
          + 0.00085282 * T * RH * RH - 0.00000199 * T * T * RH * RH)
        - (if RH < 13 ∧ 80 ≤ T ∧ T ≤ 112
            then ((13 - RH) / 4) * Real.sqrt ((17 - |T - 95|) / 17) else 0)
        + (if RH > 85 ∧ 80 ≤ T ∧ T ≤ 87
            then ((RH - 85) / 10) * ((87 - T) / 5) else 0)) ∧
    calculateHeatIndex 75 90 = 75 := by
  refine ⟨?_, ?_, ?_, ?_⟩
  · intro T RH h
    rw [calculateHeatIndex, if_pos h]
  · intro T RH h1 h2
    rw [calculateHeatIndex, if_neg h1]
    simp only [if_pos h2]
  · intro T RH h1 h2
    rw [calculateHeatIndex, if_neg h1]
    simp only [if_neg h2]
    split_ifs with hA hB hB
    · exfalso; linarith [hA.1, hB.1]
    · ring
    · ring
    · ring
  · rw [calculateHeatIndex, if_pos (by norm_num)]

/-- Witness for C6 at (75, 90): below 80 the raw temperature is
returned. -/
theorem c6_heat_index_spec_witness :
    (75 : ℝ) < 80 ∧ calculateHeatIndex 75 90 = 75 :=
  ⟨by norm_num, c6_heat_index_spec.1 75 90 (by norm_num)⟩

/-- C7: calculateDewPoint is exactly the Magnus approximation (convert T to
Celsius, alpha = ln(RH/100) + 17.625 Tc / (243.04 + Tc), dew point Celsius
243.04 alpha / (17.625 - alpha), converted back to Fahrenheit), and at
T = 70, RH = 50 the result is within 0.2 degrees of 50.6. -/
theorem c7_dew_point_spec :
    (∀ T RH : ℝ, calculateDewPoint T RH =
      (243.04 * (Real.log (RH / 100) +
          (17.625 * ((T - 32) * 5 / 9)) / (243.04 + (T - 32) * 5 / 9)) /
        (17.625 - (Real.log (RH / 100) +
          (17.625 * ((T - 32) * 5 / 9)) / (243.04 + (T - 32) * 5 / 9))) * 9 / 5) + 32) ∧
    |calculateDewPoint 70 50 - 50.6| ≤ 0.2 := by
  constructor
  · intro T RH
    rfl
  · have hlog : Real.log ((50 : ℝ) / 100) = -Real.log 2 := by
      rw [show ((50 : ℝ) / 100) = (2 : ℝ)⁻¹ by norm_num, Real.log_inv]
    have h1 : (0.6931471803 : ℝ) < Real.log 2 := Real.log_two_gt_d9
    have h2 : Real.log 2 < 0.6931471808 := Real.log_two_lt_d9
    have hc : (17.625 * (((70 : ℝ) - 32) * 5 / 9)) / (243.04 + ((70 : ℝ) - 32) * 5 / 9) =
        334875 / 237736 := by norm_num
    rw [show calculateDewPoint 70 50 =
        (243.04 * (Real.log ((50 : ℝ) / 100) +
            (17.625 * (((70 : ℝ) - 32) * 5 / 9)) / (243.04 + ((70 : ℝ) - 32) * 5 / 9)) /
          (17.625 - (Real.log ((50 : ℝ) / 100) +
            (17.625 * (((70 : ℝ) - 32) * 5 / 9)) / (243.04 + ((70 : ℝ) - 32) * 5 / 9))) *
          9 / 5) + 32 from rfl,
      hlog, hc]
    set x := Real.log 2 with hx
    have hαl : (0.7154 : ℝ) ≤ 334875 / 237736 + -x := by
      rw [hx]; linarith
    have hαu : (334875 : ℝ) / 237736 + -x ≤ 0.71546 := by
      rw [hx]; linarith
    have hden_pos : (0 : ℝ) < 17.625 - (-x + 334875 / 237736) := by
      rw [hx]; linarith
    have hkey : 243.04 * (-x + 334875 / 237736) / (17.625 - (-x + 334875 / 237736)) ≤ 10.44 := by
      rw [div_le_iff₀ hden_pos]
      nlinarith [hαl, hαu]
    have hkey2 : (10.23 : ℝ) ≤
        243.04 * (-x + 334875 / 237736) / (17.625 - (-x + 334875 / 237736)) := by
      rw [le_div_iff₀ hden_pos]
      nlinarith [hαl, hαu]
    rw [abs_le]
    constructor <;> nlinarith [hkey, hkey2]

/-- Witness for C3 (amended) at f=battout with unparseable value x. -/
theorem c3_parse_failure_acts_as_absence_witness :
    ("battout" ∉ allTriggerNames) ∧
    parseValueQ [("battout", "x", [])] "battout" = none ∧
    Parse "s" "r" (eraseV "battout" [("battout", "x", [])]) (fun _ _ => none) =
      Parse "s" "r" [("battout", "x", [])] (fun _ _ => none) :=
  ⟨by decide, by decide,
    c3_parse_failure_acts_as_absence "s" "r" "battout" [("battout", "x", [])]
      (fun _ _ => none) (by decide) (by decide) (by decide)⟩
